import Mathlib

/-!
Shallow embedding of `src/main.py` (Web Scraper Pro): the fetch-with-retry
routine `fetch_data`, the record normalizer `validate_product`, the CSV
writer `save_to_csv`, the statistics reporter `show_statistics`, and the
exit-code logic of `main`.  Python values are modelled by the inductive
type `PyVal`; Python exceptions are modelled by `Option`/failure results.
-/

namespace Scraper

/-- A Python value as it can occur in the JSON records this program
handles: `None`, booleans, integers, floats (modelled as rationals),
strings, lists and string-keyed dictionaries (association lists in
insertion order, keys unique as in a Python `dict`). -/
inductive PyVal where
  | none : PyVal
  | bool : Bool → PyVal
  | int : Int → PyVal
  | float : ℚ → PyVal
  | str : String → PyVal
  | list : List PyVal → PyVal
  | dict : List (String × PyVal) → PyVal

/-- A raw product record: a Python `dict` with string keys, as handed to
`validate_product` (src/main.py:102). -/
def RawRecord : Type := List (String × PyVal)

/-- `d.get(key, default)` on a Python dict modelled as an association
list: the value of the first matching key, else the default
(src/main.py:113-119 use `.get` throughout). -/
def rawGet : List (String × PyVal) → String → PyVal → PyVal
  | [], _, d => d
  | (k, v) :: rest, key, d => if k = key then v else rawGet rest key d

/-- `key in d`: whether the dict has the key at all. -/
def hasKey : List (String × PyVal) → String → Bool
  | [], _ => false
  | (k, _) :: rest, key => k = key || hasKey rest key

/-- Python `str.strip()`: remove leading and trailing whitespace
(src/main.py:113-117).  `Char.isWhitespace` covers the ASCII whitespace
Python strips; exotic Unicode space classes are not modelled. -/
def pyStrip (s : String) : String :=
  ⟨((s.data.dropWhile Char.isWhitespace).reverse.dropWhile Char.isWhitespace).reverse⟩

/-- Python slice `s[:n]`: the first `n` characters (code points) of `s`
(src/main.py:113 `[:100]`, src/main.py:116 `[:200]`). -/
def pySlice (s : String) (n : Nat) : String := ⟨s.data.take n⟩

/-- Left-pad a digit string with zeros to length `k`. -/
def padZeros (k : Nat) (s : String) : String :=
  if s.length < k then String.mk (List.replicate (k - s.length) '0') ++ s else s

/-- Decimal rendering of a rational, modelling Python `str`/`repr` of a
float: exact when the value has a finite decimal expansion of at most 17
digits (every value produced by the floats in this program does); a raw
fraction is the fallback.  No claim depends on this rendering. -/
def floatRepr (q : ℚ) : String :=
  let sign := if q < 0 then "-" else ""
  let a : ℚ := |q|
  match (List.range 18).find? (fun k => (a * (10 : ℚ) ^ k).den == 1) with
  | some 0 => sign ++ toString a.num ++ ".0"
  | some (k + 1) =>
      let m := (a * (10 : ℚ) ^ (k + 1)).num.natAbs
      sign ++ toString (m / 10 ^ (k + 1)) ++ "." ++
        padZeros (k + 1) (toString (m % 10 ^ (k + 1)))
  | Option.none => sign ++ toString a.num ++ "/" ++ toString a.den

/-- Python `repr` of a value (quote-escaping inside nested strings is not
modelled; no claim exercises it). -/
def pyRepr : PyVal → String
  | .none => "None"
  | .bool true => "True"
  | .bool false => "False"
  | .int n => toString n
  | .float q => floatRepr q
  | .str s => "'" ++ s ++ "'"
  | .list xs =>
      "[" ++ String.intercalate ", " (xs.attach.map (fun x => pyRepr x.1)) ++ "]"
  | .dict fs =>
      "\x7b" ++
        String.intercalate ", "
          (fs.attach.map (fun kv => "'" ++ kv.1.1 ++ "': " ++ pyRepr kv.1.2)) ++
        "\x7d"
decreasing_by
  all_goals
    first
      | (obtain ⟨xv, hmem⟩ := x
         have h := List.sizeOf_lt_of_mem hmem
         simp only [PyVal.list.sizeOf_spec] at h ⊢
         omega)
      | (obtain ⟨⟨a, b⟩, hmem⟩ := kv
         have h := List.sizeOf_lt_of_mem hmem
         simp only [PyVal.dict.sizeOf_spec, Prod.mk.sizeOf_spec] at h ⊢
         omega)

/-- Python `str(v)`: identical to `repr` except that a string is returned
as itself (src/main.py:113-117 apply `str` before `.strip()`).  Scalar
cases are spelled out (agreeing with `pyRepr`) so the function reduces
definitionally on them. -/
def pyStr : PyVal → String
  | .str s => s
  | .none => "None"
  | .bool true => "True"
  | .bool false => "False"
  | .int n => toString n
  | .float q => floatRepr q
  | v => pyRepr v

/-- All-digit character list to a natural number, `Option.none` if empty or
a non-digit occurs. -/
def digitsToNat : List Char → Option Nat
  | [] => Option.none
  | cs =>
      if cs.all Char.isDigit then
        some (cs.foldl (fun acc c => 10 * acc + (c.toNat - '0'.toNat)) 0)
      else Option.none

/-- An unsigned decimal literal (`"12"`, `"12.5"`, `"12."`, `".5"`) to a
rational; `Option.none` otherwise.  Exponents, `inf`/`nan` and digit
underscores accepted by Python `float` are not modelled — no claim uses
them. -/
def parseUnsignedFloat (cs : List Char) : Option ℚ :=
  let intPart := cs.takeWhile Char.isDigit
  let rest := cs.dropWhile Char.isDigit
  match rest with
  | [] => (digitsToNat intPart).map (fun n => (n : ℚ))
  | '.' :: fracPart =>
      if intPart.isEmpty && fracPart.isEmpty then Option.none
      else if fracPart.all Char.isDigit then
        let ip : ℚ := ((digitsToNat intPart).getD 0 : ℚ)
        let fp : ℚ := ((digitsToNat fracPart).getD 0 : ℚ) / (10 : ℚ) ^ fracPart.length
        some (ip + fp)
      else Option.none
  | _ => Option.none

/-- Python `float(s)` on a string: strip whitespace, optional sign, then a
decimal literal; raises (here: `Option.none`) otherwise. -/
def parseFloatLit (s : String) : Option ℚ :=
  match (pyStrip s).data with
  | '-' :: rest => (parseUnsignedFloat rest).map Neg.neg
  | '+' :: rest => parseUnsignedFloat rest
  | cs => parseUnsignedFloat cs

/-- Python `float(v)` (src/main.py:114): numbers and booleans coerce,
numeric strings parse, everything else raises `TypeError`/`ValueError`
(modelled as `Option.none`). -/
def pyFloat : PyVal → Option ℚ
  | .int n => some (n : ℚ)
  | .float q => some q
  | .bool b => some (if b then 1 else 0)
  | .str s => parseFloatLit s
  | _ => Option.none

/-- The cleaned record built by `validate_product` (src/main.py:112-120).
The four string fields and the price are coerced by the code; `rating`
and `rating_count` are passed through as whatever raw value sat at
`rating.rate` / `rating.count` (default `0`), with no type coercion. -/
structure CleanRecord where
  title : String
  price : ℚ
  category : String
  description : String
  image : String
  rating : PyVal
  rating_count : PyVal

/-- `validate_product` (src/main.py:102-120).  Returns `Option.none` when
the Python code raises: `float(product.get("price", 0))` raises on a
non-numeric price, and `product.get("rating", {}).get(...)` raises
`AttributeError` when a present `rating` value is not a dict.  (Python
evaluates the dict literal field by field, so one of the two exceptions
fires first; at the `Option` level both orders give `Option.none`.) -/
def validate_product (product : RawRecord) : Option CleanRecord :=
  match pyFloat (rawGet product "price" (PyVal.int 0)),
        rawGet product "rating" (PyVal.dict []) with
  | some price, PyVal.dict r =>
      some ⟨pySlice (pyStrip (pyStr (rawGet product "title" (PyVal.str "N/A")))) 100,
            price,
            pyStrip (pyStr (rawGet product "category" (PyVal.str "N/A"))),
            pySlice (pyStrip (pyStr (rawGet product "description" (PyVal.str "N/A")))) 200,
            pyStrip (pyStr (rawGet product "image" (PyVal.str "N/A"))),
            rawGet r "rate" (PyVal.int 0),
            rawGet r "count" (PyVal.int 0)⟩
  | _, _ => Option.none

/-- Outcome of one HTTP attempt inside `fetch_data` (src/main.py:66-92),
classified exactly as its `try`/`except` arms do: a 2xx response with a
JSON body (here: an array of records), `requests.exceptions.Timeout`,
`requests.exceptions.ConnectionError`, `HTTPError` (a 4xx/5xx status via
`raise_for_status`), `JSONDecodeError`, or any other exception. -/
inductive AttemptOutcome where
  | success : List RawRecord → AttemptOutcome
  | timeout : AttemptOutcome
  | connError : AttemptOutcome
  | httpError : AttemptOutcome
  | jsonError : AttemptOutcome
  | otherError : AttemptOutcome

/-- Recoverable errors: the two `except` arms that fall through to the
retry logic (src/main.py:76-80). -/
def recoverable : AttemptOutcome → Bool
  | .timeout => true
  | .connError => true
  | _ => false

/-- Observable behaviour of one `fetch_data` run: how many attempts were
made, the argument of each `time.sleep` call in order, and the returned
value (`Option.none` models returning Python `None`). -/
structure FetchTrace where
  attempts : Nat
  sleeps : List ℚ
  result : Option (List RawRecord)

/-- One more attempt in front of an already-computed tail run: bump the
attempt count and record the `time.sleep(delay)` (src/main.py:94-96)
executed before the remaining attempts. -/
def bump (delay : ℚ) (t : FetchTrace) : FetchTrace :=
  ⟨t.attempts + 1, delay :: t.sleeps, t.result⟩

/-- `fetch_data` (src/main.py:47-99) as a function of the per-attempt
outcomes.  The list argument holds the outcome each of the `retries`
loop iterations would see, so its length is the `retries` parameter
(`for attempt in range(1, retries + 1)`).  Success returns the parsed
data at once; a terminal error returns `None` at once; a recoverable
error sleeps `delay` and retries while attempts remain
(`if attempt < retries`), else falls out of the loop and returns `None`. -/
def fetch_data (delay : ℚ) : List AttemptOutcome → FetchTrace
  | [] => ⟨0, [], Option.none⟩
  | o :: rest =>
      match o, rest with
      | .success d, _ => ⟨1, [], some d⟩
      | .httpError, _ => ⟨1, [], Option.none⟩
      | .jsonError, _ => ⟨1, [], Option.none⟩
      | .otherError, _ => ⟨1, [], Option.none⟩
      | .timeout, [] => ⟨1, [], Option.none⟩
      | .timeout, r :: rs => bump delay (fetch_data delay (r :: rs))
      | .connError, [] => ⟨1, [], Option.none⟩
      | .connError, r :: rs => bump delay (fetch_data delay (r :: rs))

/-- Round a rational to the nearest integer, ties to the even neighbour:
the rounding Python's `f"...:.2f"` formatting applies to the (exactly
represented) values in this development.  Computed from the numerator and
denominator with floor division: the fractional part is `r / den` with
`0 ≤ r < den`, so it compares to `1/2` as `2 * r` compares to `den`. -/
def roundHalfEven (q : ℚ) : ℤ :=
  let d : ℤ := (q.den : ℤ)
  let f := Int.fdiv q.num d
  let r := q.num - f * d
  if 2 * r < d then f
  else if d < 2 * r then f + 1
  else if f % 2 = 0 then f else f + 1

/-- Fixed two-decimal rendering of `m / 100`. -/
def format2Scaled (m : ℚ) : String :=
  let n := roundHalfEven m
  let sign := if n < 0 then "-" else ""
  let a := n.natAbs
  sign ++ toString (a / 100) ++ "." ++ padZeros 2 (toString (a % 100))

/-- Python `f"{x:.2f}"`: fixed two-decimal rendering. -/
def format2 (q : ℚ) : String := format2Scaled (q * 100)

/-- The CSV header row (src/main.py:139). -/
def csvHeaders : List String :=
  ["Title", "Price", "Category", "Description", "Image URL", "Rating", "Rating Count"]

/-- One CSV data row (src/main.py:147-155): the cleaned fields, the price
as a `$`-prefixed two-decimal string, and `rating`/`rating_count`
stringified by the csv writer. -/
def rowOf (c : CleanRecord) : List String :=
  [c.title, "$" ++ format2 c.price, c.category, c.description, c.image,
   pyStr c.rating, pyStr c.rating_count]

/-- The rows written by the loop in `save_to_csv` (src/main.py:145-156)
and whether it ran to completion: validation of a record raises inside
the `try`, so writing stops at the first failing record and the function
returns `False`. -/
def writeRows : List RawRecord → List (List String) × Bool
  | [] => ([], true)
  | p :: rest =>
      match validate_product p with
      | some c =>
          let t := writeRows rest
          (rowOf c :: t.1, t.2)
      | Option.none => ([], false)

/-- `save_to_csv` (src/main.py:123-167): the returned flag and the file
contents (`Option.none` = the file was never opened).  An empty product
list returns `False` before `open` is reached; otherwise the header and
the rows written before any failure are in the file. -/
def save_to_csv (products : List RawRecord) : Bool × Option (List (List String)) :=
  match products with
  | [] => (false, Option.none)
  | _ :: _ =>
      let t := writeRows products
      (t.2, some (csvHeaders :: t.1))

/-- The exit code computed by `main` (src/main.py:237-251) as a function
of what `fetch_data` returned: `if products:` is Python truthiness, so
both `None` and the empty list fall through to `return 1`; a nonempty
list is saved and the run succeeds only if `save_to_csv` returned
`True`. -/
def mainExit (fetchResult : Option (List RawRecord)) : Nat :=
  match fetchResult with
  | Option.none => 1
  | some [] => 1
  | some (p :: ps) => if (save_to_csv (p :: ps)).1 then 0 else 1

/-! Helper lemmas. -/

theorem rawGet_of_hasKey_eq_false (p : List (String × PyVal)) (key : String)
    (d : PyVal) (h : hasKey p key = false) : rawGet p key d = d := by
  induction p with
  | nil => rfl
  | cons kv rest ih =>
      obtain ⟨k, v⟩ := kv
      simp only [hasKey, Bool.or_eq_false_iff, decide_eq_false_iff_not] at h
      simp only [rawGet, if_neg h.1]
      exact ih h.2

theorem pySlice_length (s : String) (n : Nat) :
    (pySlice s n).length = min n s.length := by
  obtain ⟨data⟩ := s
  simp only [pySlice, String.length, List.length_take]

/-- Recoverable outcomes all the way down: `fetch_data` runs every
attempt, sleeping between consecutive ones, and ends with `None`. -/
theorem fetch_all_recoverable (delay : ℚ) :
    ∀ outcomes : List AttemptOutcome, outcomes ≠ [] →
      (∀ o ∈ outcomes, recoverable o = true) →
      fetch_data delay outcomes =
        ⟨outcomes.length, List.replicate (outcomes.length - 1) delay, Option.none⟩
  | [], h, _ => absurd rfl h
  | [o], _, hrec => by
      have ho := hrec o (by simp)
      cases o <;> simp [recoverable] at ho <;> simp [fetch_data]
  | o :: r :: rs, _, hrec => by
      have ho := hrec o (by simp)
      have ih := fetch_all_recoverable delay (r :: rs) (by simp)
        (fun x hx => hrec x (by simp [hx]))
      cases o with
      | timeout =>
          show bump delay (fetch_data delay (r :: rs)) = _
          rw [ih]
          simp [bump, List.replicate_succ, List.length_cons]
      | connError =>
          show bump delay (fetch_data delay (r :: rs)) = _
          rw [ih]
          simp [bump, List.replicate_succ, List.length_cons]
      | success d => simp [recoverable] at ho
      | httpError => simp [recoverable] at ho
      | jsonError => simp [recoverable] at ho
      | otherError => simp [recoverable] at ho

/-! The claims. -/

/-- C1: for every `maxAttempts = N ≥ 1`, every `delaySeconds ≥ 0` and
every run in which all `N` attempts raise a recoverable error (timeout
or connection failure), `fetch_data` performs exactly `N` attempts,
sleeps `delaySeconds` between each consecutive pair (`N - 1` sleeps in
all) and returns `None`. -/
theorem C1_fetch_exhausts_recoverable (N : Nat) (delay : ℚ)
    (outcomes : List AttemptOutcome) (hN : 1 ≤ N) (_hdelay : 0 ≤ delay)
    (hlen : outcomes.length = N)
    (hrec : ∀ o ∈ outcomes, recoverable o = true) :
    fetch_data delay outcomes =
      ⟨N, List.replicate (N - 1) delay, Option.none⟩ := by
  subst hlen
  refine fetch_all_recoverable delay outcomes ?_ hrec
  intro h
  rw [h] at hN
  exact absurd hN (by simp)

/-- Witness for C1 at `N = 2`, `delay = 1`: one timeout then one
connection failure give two attempts, one sleep and `None`. -/
theorem C1_witness :
    fetch_data 1 [AttemptOutcome.timeout, AttemptOutcome.connError] =
      ⟨2, List.replicate 1 1, Option.none⟩ :=
  C1_fetch_exhausts_recoverable 2 1
    [AttemptOutcome.timeout, AttemptOutcome.connError]
    (by norm_num) (by norm_num) rfl (by decide)

/-- C4: a terminal error (an HTTP 4xx/5xx status, a non-JSON body, or
any other unexpected exception) at the first attempt makes `fetch_data`
return `None` immediately: one attempt, no sleeps, whatever attempts
would have remained. -/
theorem C4_terminal_immediate_failure (delay : ℚ) (o : AttemptOutcome)
    (rest : List AttemptOutcome)
    (h : o = AttemptOutcome.httpError ∨ o = AttemptOutcome.jsonError ∨
      o = AttemptOutcome.otherError) :
    fetch_data delay (o :: rest) = ⟨1, [], Option.none⟩ := by
  rcases h with h | h | h <;> subst h <;> cases rest <;> simp [fetch_data]

/-- Witness for C4: a single 404/500 (HTTPError) on the first of one
attempt yields immediate failure with zero retries. -/
theorem C4_witness :
    fetch_data 1 [AttemptOutcome.httpError] = ⟨1, [], Option.none⟩ :=
  C4_terminal_immediate_failure 1 AttemptOutcome.httpError [] (Or.inl rfl)

/-- C7: a 2xx response whose body parses as a JSON array on the first
attempt makes `fetch_data` return exactly that parsed list, with one
attempt and no sleep, whatever attempts would have remained. -/
theorem C7_success_first_attempt (delay : ℚ) (d : List RawRecord)
    (rest : List AttemptOutcome) :
    fetch_data delay (AttemptOutcome.success d :: rest) =
      ⟨1, [], some d⟩ := by
  cases rest <;> simp [fetch_data]

/-- C5: `validate_product` on the empty dict returns exactly the
all-defaults record `title = "N/A"`, `price = 0`, `category = "N/A"`,
`description = "N/A"`, `image = "N/A"`, `rating = 0`,
`rating_count = 0`. -/
theorem C5_validate_empty_all_defaults :
    validate_product [] =
      some ⟨"N/A", 0, "N/A", "N/A", "N/A", PyVal.int 0, PyVal.int 0⟩ := rfl

/-- C2 fails as stated: `float(product.get("price", 0))` raises on a
non-numeric price, so `validate_product` does not return a record (let
alone one with price 0) on `{"price": None}`. -/
theorem C2_counterexample :
    validate_product [("price", PyVal.none)] = Option.none := rfl

/-- C2 (amended): `validate_product` returns a `CleanRecord` whenever
the price field coerces to a float (it is absent, a number, a boolean or
a numeric string) and the rating field, if present, is a dict; an absent
price yields price 0.  A present non-numeric price makes it raise
instead of defaulting. -/
theorem C2_amended_validate_price (product : RawRecord) (q : ℚ)
    (r : List (String × PyVal))
    (hp : pyFloat (rawGet product "price" (PyVal.int 0)) = some q)
    (hr : rawGet product "rating" (PyVal.dict []) = PyVal.dict r) :
    (validate_product product).map CleanRecord.price = some q ∧
      (hasKey product "price" = false → q = 0) := by
  constructor
  · simp [validate_product, hp, hr]
  · intro hk
    rw [rawGet_of_hasKey_eq_false product "price" (PyVal.int 0) hk] at hp
    simp [pyFloat] at hp
    exact hp.symm

/-- Witness for C2 (amended) at the empty record: the price defaults to
`float(0)`. -/
theorem C2_witness :
    (validate_product []).map CleanRecord.price = some (((0 : ℤ) : ℚ)) ∧
      (hasKey [] "price" = false → ((0 : ℤ) : ℚ) = 0) :=
  C2_amended_validate_price [] ((0 : ℤ) : ℚ) [] rfl rfl

/-- C3 fails as stated: a malformed `rating` field does not degrade to a
default — `product.get("rating", {}).get("rate", 0)` raises
`AttributeError` when the rating value is not a dict, so
`validate_product` fails on `{"rating": 5}`. -/
theorem C3_counterexample :
    validate_product [("rating", PyVal.int 5)] = Option.none := rfl

/-- C3 (amended): when the price field coerces to a float and the rating
field, if present, is a dict, `validate_product` returns a record (its
string fields and price are coerced to the declared types by
construction); `rating` and `rating_count`, however, are passed through
as the raw `rating.rate` / `rating.count` values (default `0`) with no
type coercion.  A non-float-coercible price or a present non-dict rating
makes `validate_product` raise instead of defaulting. -/
theorem C3_amended_validate_field_types (product : RawRecord) (q : ℚ)
    (r : List (String × PyVal))
    (hp : pyFloat (rawGet product "price" (PyVal.int 0)) = some q)
    (hr : rawGet product "rating" (PyVal.dict []) = PyVal.dict r) :
    (validate_product product).map
        (fun c => (c.price, c.rating, c.rating_count)) =
      some (q, rawGet r "rate" (PyVal.int 0), rawGet r "count" (PyVal.int 0)) := by
  simp [validate_product, hp, hr]

/-- Witness for C3 (amended): a rating dict with a string `rate` is
passed through untouched. -/
theorem C3_witness :
    (validate_product [("rating", PyVal.dict [("rate", PyVal.str "five")])]).map
        (fun c => (c.price, c.rating, c.rating_count)) =
      some (((0 : ℤ) : ℚ), PyVal.str "five", PyVal.int 0) := by
  have h := C3_amended_validate_field_types
    [("rating", PyVal.dict [("rate", PyVal.str "five")])]
    ((0 : ℤ) : ℚ) [("rate", PyVal.str "five")] rfl rfl
  simpa using h

/-- C6 fails as stated: it quantifies over every record with a
150-character title and a 300-character description, but such a record
can still make `validate_product` raise — for example when its price is
`None` — so no record is returned at all. -/
theorem C6_counterexample :
    validate_product
      [("title", PyVal.str (String.mk (List.replicate 150 'a'))),
       ("description", PyVal.str (String.mk (List.replicate 300 'b'))),
       ("price", PyVal.none)] = Option.none := rfl

/-- C6 (amended): whenever `validate_product` does return a record and
the input title is a 150-character string and the input description a
300-character string, neither with surrounding whitespace, the returned
title is exactly the first 100 characters of the input title and the
returned description exactly the first 200 characters of the input
description. -/
theorem C6_amended_truncation (product : RawRecord) (t d : String)
    (c : CleanRecord)
    (ht : rawGet product "title" (PyVal.str "N/A") = PyVal.str t)
    (ht1 : pyStrip t = t) (ht2 : t.length = 150)
    (hd : rawGet product "description" (PyVal.str "N/A") = PyVal.str d)
    (hd1 : pyStrip d = d) (hd2 : d.length = 300)
    (hv : validate_product product = some c) :
    c.title = pySlice t 100 ∧ c.title.length = 100 ∧
      c.description = pySlice d 200 ∧ c.description.length = 200 := by
  unfold validate_product at hv
  split at hv
  · rw [ht, hd] at hv
    cases hv
    refine ⟨?_, ?_, ?_, ?_⟩ <;>
      simp [pyStr, ht1, hd1, pySlice_length, ht2, hd2]
  · exact absurd hv (by simp)

set_option maxRecDepth 8000 in
/-- Witness for C6 (amended): 150 letters `a` as title and 300 letters
`b` as description truncate to 100 and 200 characters. -/
theorem C6_witness :
    (String.mk (List.replicate 100 'a')) =
        pySlice (String.mk (List.replicate 150 'a')) 100 ∧
      (String.mk (List.replicate 100 'a')).length = 100 ∧
      (String.mk (List.replicate 200 'b')) =
        pySlice (String.mk (List.replicate 300 'b')) 200 ∧
      (String.mk (List.replicate 200 'b')).length = 200 :=
  C6_amended_truncation
    [("title", PyVal.str (String.mk (List.replicate 150 'a'))),
     ("description", PyVal.str (String.mk (List.replicate 300 'b')))]
    (String.mk (List.replicate 150 'a')) (String.mk (List.replicate 300 'b'))
    ⟨String.mk (List.replicate 100 'a'), ((0 : ℤ) : ℚ), "N/A",
     String.mk (List.replicate 200 'b'), "N/A", PyVal.int 0, PyVal.int 0⟩
    rfl rfl rfl rfl rfl rfl rfl

/-- C10 fails as stated: it quantifies over every record in which a
string-typed field is present with value `None`, but on
`{"title": None, "price": None}` the title is present as `None` and yet
`validate_product` raises on the price and returns no record, so no
`"None"` title is ever produced. -/
theorem C10_counterexample :
    validate_product [("title", PyVal.none), ("price", PyVal.none)] =
      Option.none := rfl

/-- C10 (amended): whenever `validate_product` does return a record,
each of the four string-typed fields (`title`, `category`,
`description`, `image`) that is present in the input with value `None`
comes out as the string `"None"` (Python `str(None)`), not as the
`"N/A"` default, and conversely a field whose key is entirely absent
comes out as `"N/A"`.  Each field behaves this way independently of the
others; the only proviso, forced by the counterexample, is that a record
is returned at all. -/
theorem C10_amended_none_fields (product : RawRecord) (c : CleanRecord)
    (hv : validate_product product = some c) :
    ((rawGet product "title" (PyVal.str "N/A") = PyVal.none →
        c.title = "None") ∧
      (hasKey product "title" = false → c.title = "N/A")) ∧
    ((rawGet product "category" (PyVal.str "N/A") = PyVal.none →
        c.category = "None") ∧
      (hasKey product "category" = false → c.category = "N/A")) ∧
    ((rawGet product "description" (PyVal.str "N/A") = PyVal.none →
        c.description = "None") ∧
      (hasKey product "description" = false → c.description = "N/A")) ∧
    ((rawGet product "image" (PyVal.str "N/A") = PyVal.none →
        c.image = "None") ∧
      (hasKey product "image" = false → c.image = "N/A")) ∧
    ("None" : String) ≠ "N/A" := by
  unfold validate_product at hv
  split at hv
  · cases hv
    refine ⟨⟨?_, ?_⟩, ⟨?_, ?_⟩, ⟨?_, ?_⟩, ⟨?_, ?_⟩, by decide⟩ <;>
      intro h <;>
      first
        | (rw [h]; try rfl)
        | (rw [rawGet_of_hasKey_eq_false _ _ _ h]; try rfl)
  · exact absurd hv (by simp)

/-- Witness for C10 (amended) on `{"title": None}`: the present-as-None
title comes out `"None"` while the absent category, description and
image come out `"N/A"`. -/
theorem C10_witness :
    ((rawGet [("title", PyVal.none)] "title" (PyVal.str "N/A") = PyVal.none →
        ("None" : String) = "None") ∧
      (hasKey [("title", PyVal.none)] "title" = false →
        ("None" : String) = "N/A")) ∧
    ((rawGet [("title", PyVal.none)] "category" (PyVal.str "N/A") = PyVal.none →
        ("N/A" : String) = "None") ∧
      (hasKey [("title", PyVal.none)] "category" = false →
        ("N/A" : String) = "N/A")) ∧
    ((rawGet [("title", PyVal.none)] "description" (PyVal.str "N/A") = PyVal.none →
        ("N/A" : String) = "None") ∧
      (hasKey [("title", PyVal.none)] "description" = false →
        ("N/A" : String) = "N/A")) ∧
    ((rawGet [("title", PyVal.none)] "image" (PyVal.str "N/A") = PyVal.none →
        ("N/A" : String) = "None") ∧
      (hasKey [("title", PyVal.none)] "image" = false →
        ("N/A" : String) = "N/A")) ∧
    ("None" : String) ≠ "N/A" :=
  C10_amended_none_fields [("title", PyVal.none)]
    ⟨"None", ((0 : ℤ) : ℚ), "N/A", "N/A", "N/A", PyVal.int 0, PyVal.int 0⟩ rfl

/-- C9: a successful fetch that yields an empty list is treated as a
failed run — `save_to_csv` on an empty list returns `False` without the
output file ever being opened, and `main` (whose `if products:` is also
falsy on `[]`) returns exit code 1. -/
theorem C9_empty_fetch_is_failure :
    save_to_csv [] = (false, Option.none) ∧ mainExit (some []) = 1 :=
  ⟨rfl, rfl⟩

end Scraper
